import Mathlib

/-!
Shallow embedding of the libbgpstream stream coordinator (`bgpstream.c`)
together with the pieces of its subordinate managers that the coordinator
calls.  The coordinator source is embedded line by line; the manager
functions whose C sources are not part of the provided tree (filter
manager, data-interface manager, input manager, reader manager) are
modelled from the specification, each marked in its doc comment.

Timestamps, interval bounds and durations are `uint32_t` in C; they are
embedded as `Nat` (no arithmetic in the embedded claims can overflow a
uint32, and `BGPSTREAM_FOREVER = UINT32_MAX` is kept as the literal).
C functions returning `int` status codes are embedded as returning `Int`.
A nullable `bgpstream_t *` handle is embedded as `Option bgpstream_t`:
`none` is the NULL pointer.  Functions that mutate through the pointer
return the updated handle.
-/

/-- Coordinator lifecycle status, from `bgpstream_status` in the C header
(`BGPSTREAM_STATUS_ALLOCATED / ON / OFF`). -/
inductive bgpstream_status_t where
  | allocated
  | on
  | off
deriving DecidableEq, Repr

/-- `BGPSTREAM_FOREVER = UINT32_MAX` marks an open-ended interval. -/
def BGPSTREAM_FOREVER : Nat := 4294967295

/-- Filter manager state.  Modelled from the spec: the Filter Set holds
generic predicates added by `add(kind, value)`, the appended list of time
intervals, and the RIB-period window.  (The filter manager's C source is
not in the provided tree; only its callers are.) -/
structure bgpstream_filter_mgr_t where
  filters : List (Nat × String)
  intervals : List (Nat × Nat)
  rib_period : Option Nat
deriving DecidableEq, Repr

/-- One poll of the data interface, as observed by the coordinator's call
to `bgpstream_di_mgr_get_queue`: `none` embeds a negative return (backend
failure); `some files` embeds a successful return whose descriptor count
is `files.length`, each file being the (already coarse/fine filtered)
non-decreasing sequence of record timestamps it will yield. -/
abbrev PollResult : Type := Option (List (List Nat))

/-- Data-interface manager state.  The fields mirror
`struct_bgpstream_datasource_mgr_t` in `bgpstream_datasource.h`
(`datasource` id, backend-specific options, the `blocking` live-mode
flag); `polls` is the oracle of successive poll outcomes the backend
will produce, standing in for the backend's external data. -/
structure bgpstream_di_mgr_t where
  datasource : Nat
  options : List (Nat × String)
  blocking : Bool
  polls : List PollResult
deriving DecidableEq, Repr

/-- The coordinator, `struct bgpstream` in `bgpstream_int.h`: the four
owned components and the lifecycle status, as constructed by
`bgpstream_create`.  `input_mgr` is the queue of pending files (each the
timestamp sequence it will yield); `reader_mgr` is the set of open
readers, each holding the not-yet-delivered timestamps of one file. -/
structure bgpstream_t where
  filter_mgr : bgpstream_filter_mgr_t
  di_mgr : bgpstream_di_mgr_t
  input_mgr : List (List Nat)
  reader_mgr : List (List Nat)
  status : bgpstream_status_t
deriving DecidableEq, Repr

/-- Modelled from the spec: `add(kind, value)` parses and stores the
predicate (`bgpstream_filter_mgr_filter_add`, source not provided). -/
def bgpstream_filter_mgr_filter_add (fm : bgpstream_filter_mgr_t)
    (filter_type : Nat) (filter_value : String) : bgpstream_filter_mgr_t :=
  { fm with filters := fm.filters ++ [(filter_type, filter_value)] }

/-- Modelled from the spec: `add_rib_period(seconds)` sets the
per-collector RIB dedup window
(`bgpstream_filter_mgr_rib_period_filter_add`, source not provided). -/
def bgpstream_filter_mgr_rib_period_filter_add (fm : bgpstream_filter_mgr_t)
    (period : Nat) : bgpstream_filter_mgr_t :=
  { fm with rib_period := some period }

/-- Modelled from the spec: `add_interval(begin, end)` appends one
interval (`bgpstream_filter_mgr_interval_filter_add`, source not
provided). -/
def bgpstream_filter_mgr_interval_filter_add (fm : bgpstream_filter_mgr_t)
    (begin_time end_time : Nat) : bgpstream_filter_mgr_t :=
  { fm with intervals := fm.intervals ++ [(begin_time, end_time)] }

/-- Modelled from the spec: `validate()` fails (non-zero) iff no time
interval was ever added (`bgpstream_filter_mgr_validate`, source not
provided). -/
def bgpstream_filter_mgr_validate (fm : bgpstream_filter_mgr_t) : Int :=
  if fm.intervals.isEmpty then -1 else 0

/-- Modelled from the spec: selects the active backend
(`bgpstream_di_mgr_set_data_interface`, source not provided; the header
shows the manager stores the chosen `datasource` id). -/
def bgpstream_di_mgr_set_data_interface (dm : bgpstream_di_mgr_t)
    (di : Nat) : bgpstream_di_mgr_t :=
  { dm with datasource := di }

/-- Modelled from the spec: records a backend-specific option value
(`bgpstream_di_mgr_set_data_interface_option`, source not provided);
returns the C int status (0 on success). -/
def bgpstream_di_mgr_set_data_interface_option (dm : bgpstream_di_mgr_t)
    (option_type : Nat) (option_value : String) : bgpstream_di_mgr_t × Int :=
  ({ dm with options := dm.options ++ [(option_type, option_value)] }, 0)

/-- Modelled from the spec / header: sets the manager's `blocking` flag
(`bgpstream_di_mgr_set_blocking`, source not provided). -/
def bgpstream_di_mgr_set_blocking (dm : bgpstream_di_mgr_t) : bgpstream_di_mgr_t :=
  { dm with blocking := true }

/-- `bgpstream_set_live_mode` (bgpstream.c): configures the interface so
that it blocks waiting for new data, by setting the di manager's
blocking flag.  (No NULL or status check in the source.) -/
def bgpstream_set_live_mode (bs : bgpstream_t) : bgpstream_t :=
  { bs with di_mgr := bgpstream_di_mgr_set_blocking bs.di_mgr }

/-- `bgpstream_add_filter` (bgpstream.c): returns with no effect if the
handle is NULL or the status is not ALLOCATED, otherwise delegates to
the filter manager.  The C function returns void. -/
def bgpstream_add_filter (bs : Option bgpstream_t) (filter_type : Nat)
    (filter_value : String) : Option bgpstream_t :=
  match bs with
  | none => none
  | some b =>
    if b.status ≠ bgpstream_status_t.allocated then some b
    else some { b with filter_mgr :=
      bgpstream_filter_mgr_filter_add b.filter_mgr filter_type filter_value }

/-- `bgpstream_add_rib_period_filter` (bgpstream.c): same guard as
`bgpstream_add_filter`, then delegates to the filter manager. -/
def bgpstream_add_rib_period_filter (bs : Option bgpstream_t)
    (period : Nat) : Option bgpstream_t :=
  match bs with
  | none => none
  | some b =>
    if b.status ≠ bgpstream_status_t.allocated then some b
    else some { b with filter_mgr :=
      bgpstream_filter_mgr_rib_period_filter_add b.filter_mgr period }

/-- Digit value of one character of a duration specifier. -/
def digitVal (c : Char) : Option Nat :=
  if c.isDigit then some (c.toNat - 48) else none

/-- Numeric value of a digit string (none if empty or non-digit). -/
def digitsVal : List Char → Option Nat
  | [] => none
  | [c] => digitVal c
  | c :: cs => match digitVal c, digitsVal cs with
    | some d, some r => some (d * 10 ^ cs.length + r)
    | _, _ => none

/-- Seconds denoted by a duration-unit suffix character. -/
def unitSeconds (c : Char) : Option Nat :=
  if c = 's' then some 1
  else if c = 'm' then some 60
  else if c = 'h' then some 3600
  else if c = 'd' then some 86400
  else if c = 'w' then some 604800
  else none

/-- Modelled from the spec: duration specifiers accept `\d+[smhdw]?`
(default seconds).  Returns the number of seconds, or `none` when the
specifier cannot be parsed. -/
def parseDuration (s : List Char) : Option Nat :=
  match s.reverse with
  | [] => none
  | c :: rest =>
    if c.isDigit then digitsVal s
    else match unitSeconds c, digitsVal rest.reverse with
      | some u, some n => some (n * u)
      | _, _ => none

/-- Modelled from the spec: `bgpstream_time_calc_recent_interval`
(source not provided) computes `[now − spec, now]` from a duration
specifier, failing (C return 0, here `none`) when the specifier cannot
be parsed.  `now` stands for the wall-clock time the C code reads. -/
def bgpstream_time_calc_recent_interval (now : Nat) (interval : String) :
    Option (Nat × Nat) :=
  (parseDuration interval.toList).map (fun d => (now - d, now))

/-- `bgpstream_add_recent_interval_filter` (bgpstream.c): guard on NULL /
non-ALLOCATED status; compute the recent interval, returning with no
effect if that fails; if `islive`, set live mode and replace the end
with FOREVER; append the interval. -/
def bgpstream_add_recent_interval_filter (bs : Option bgpstream_t)
    (now : Nat) (interval : String) (islive : Bool) : Option bgpstream_t :=
  match bs with
  | none => none
  | some b =>
    if b.status ≠ bgpstream_status_t.allocated then some b
    else match bgpstream_time_calc_recent_interval now interval with
      | none => some b
      | some (starttime, endtime) =>
        let b := if islive then bgpstream_set_live_mode b else b
        let endtime := if islive then BGPSTREAM_FOREVER else endtime
        some { b with filter_mgr :=
          bgpstream_filter_mgr_interval_filter_add b.filter_mgr starttime endtime }

/-- `bgpstream_add_interval_filter` (bgpstream.c): guard on NULL /
non-ALLOCATED status; if `end_time` is FOREVER, set live mode; append
the interval. -/
def bgpstream_add_interval_filter (bs : Option bgpstream_t)
    (begin_time end_time : Nat) : Option bgpstream_t :=
  match bs with
  | none => none
  | some b =>
    if b.status ≠ bgpstream_status_t.allocated then some b
    else
      let b := if end_time = BGPSTREAM_FOREVER then bgpstream_set_live_mode b else b
      some { b with filter_mgr :=
        bgpstream_filter_mgr_interval_filter_add b.filter_mgr begin_time end_time }

/-- `bgpstream_set_data_interface_option` (bgpstream.c): delegates
directly to the di manager.  The source performs no NULL check and no
status check. -/
def bgpstream_set_data_interface_option (bs : bgpstream_t)
    (option_type : Nat) (option_value : String) : bgpstream_t × Int :=
  let r := bgpstream_di_mgr_set_data_interface_option bs.di_mgr option_type option_value
  ({ bs with di_mgr := r.1 }, r.2)

/-- `bgpstream_set_data_interface` (bgpstream.c): delegates directly to
the di manager.  The source performs no NULL check and no status
check. -/
def bgpstream_set_data_interface (bs : bgpstream_t) (di : Nat) : bgpstream_t :=
  { bs with di_mgr := bgpstream_di_mgr_set_data_interface bs.di_mgr di }

/-- `bgpstream_start` (bgpstream.c): validate the filters (non-zero
return is passed straight back); start the data interface (on failure
the status is set back to ALLOCATED and −1 returned); on success the
status becomes ON and 0 is returned.  `di_start_rc` stands for the
return value of `bgpstream_di_mgr_start` (source not provided), which
depends on backend I/O outside the coordinator state. -/
def bgpstream_start (di_start_rc : Int) (bs : bgpstream_t) : Int × bgpstream_t :=
  let rc := bgpstream_filter_mgr_validate bs.filter_mgr
  if rc ≠ 0 then (rc, bs)
  else if di_start_rc ≠ 0 then
    (-1, { bs with status := bgpstream_status_t.allocated })
  else (0, { bs with status := bgpstream_status_t.on })

/-- `bgpstream_reader_mgr_is_empty`: no open reader still holds an
undelivered record. -/
def bgpstream_reader_mgr_is_empty (readers : List (List Nat)) : Bool :=
  readers.all (fun l => l.isEmpty)

/-- Modelled from the spec: `bgpstream_reader_mgr_add` (source not
provided) opens one reader per input descriptor and primes it; readers
whose file yields no admitted record go straight to EOF and never enter
the ready set. -/
def bgpstream_reader_mgr_add (readers files : List (List Nat)) :
    List (List Nat) :=
  readers ++ files.filter (fun l => !l.isEmpty)

/-- Modelled from the spec: the Reader Set's emission step (`pop_next` /
`bgpstream_reader_mgr_get_next_record`, source not provided).  Removes
the reader with the minimum head timestamp (ties to the earlier
insertion), delivers that head, and reinserts the advanced reader.
Exhausted entries are skipped (per the spec an EOF reader is dropped;
keeping an empty placeholder in the list is observationally the same
since it is never visible again). -/
def reader_mgr_pop : List (List Nat) → Option (Nat × List (List Nat))
  | [] => none
  | [] :: rest =>
    match reader_mgr_pop rest with
    | none => none
    | some (t, rest') => some (t, [] :: rest')
  | (t :: ts) :: rest =>
    match reader_mgr_pop rest with
    | none => some (t, ts :: rest)
    | some (u, rest') =>
      if t ≤ u then some (t, ts :: rest) else some (u, (t :: ts) :: rest')

/-- The refill/merge loop of `bgpstream_get_next_record` (bgpstream.c):
while the reader set is empty, while the input queue is empty, poll the
data interface (0 results → return 0, negative → return −1); then move
the input queue into the reader set; once the reader set is non-empty,
deliver its minimum record (C return 1 with the record written out, here
`some t`).  The loop is written on explicit fuel; the caller supplies
enough fuel for the loop to run to its C outcome (each iteration
consumes a poll or drains the input queue). -/
def bgpstream_get_next_loop :
    Nat → List PollResult → List (List Nat) → List (List Nat) →
    Int × Option Nat × (List PollResult × List (List Nat) × List (List Nat))
  | 0, polls, inputs, readers => (-1, none, (polls, inputs, readers))
  | Nat.succ fuel, polls, inputs, readers =>
    if bgpstream_reader_mgr_is_empty readers then
      if inputs.isEmpty then
        match polls with
        | [] => (0, none, ([], inputs, readers))
        | none :: rest => (-1, none, (rest, inputs, readers))
        | some [] :: rest => (0, none, (rest, inputs, readers))
        | some (f :: fs) :: rest =>
          bgpstream_get_next_loop fuel rest (inputs ++ f :: fs) readers
      else
        bgpstream_get_next_loop fuel polls []
          (bgpstream_reader_mgr_add readers inputs)
    else
      match reader_mgr_pop readers with
      | some (t, readers') => (1, some t, (polls, inputs, readers'))
      | none => (-1, none, (polls, inputs, readers))

/-- `bgpstream_get_next_record` (bgpstream.c): NULL handle or status ≠ ON
returns −1 without touching the record; otherwise run the refill/merge
loop.  Returns (status code, delivered timestamp if any, updated
handle). -/
def bgpstream_get_next_record (bs : Option bgpstream_t) :
    Int × Option Nat × Option bgpstream_t :=
  match bs with
  | none => (-1, none, none)
  | some b =>
    if b.status ≠ bgpstream_status_t.on then (-1, none, some b)
    else
      let fuel := 2 * b.di_mgr.polls.length + 2
      let r := bgpstream_get_next_loop fuel b.di_mgr.polls b.input_mgr b.reader_mgr
      (r.1, r.2.1, some { b with
        di_mgr := { b.di_mgr with polls := r.2.2.1 },
        input_mgr := r.2.2.2.1,
        reader_mgr := r.2.2.2.2 })

/-- The stream of timestamps delivered by successive successful calls to
`bgpstream_get_next_record`, stopping at the first call that does not
deliver a record (end-of-stream or error).  `fuel` bounds the number of
calls. -/
def bgpstream_run : Nat → Option bgpstream_t → List Nat
  | 0, _ => []
  | Nat.succ fuel, bs =>
    match bgpstream_get_next_record bs with
    | (_, some t, bs') => t :: bgpstream_run fuel bs'
    | (_, none, _) => []

/-- `bgpstream_stop` (bgpstream.c, static): sets the status to OFF, but
only when the handle is non-NULL and the status is ON; otherwise does
nothing. -/
def bgpstream_stop (b : bgpstream_t) : bgpstream_t :=
  if b.status = bgpstream_status_t.on then
    { b with status := bgpstream_status_t.off }
  else b

/-- Names for the four components the coordinator owns, used to record
construction/destruction order. -/
inductive bgpstream_component where
  | filter_mgr
  | di_mgr
  | input_mgr
  | reader_mgr
deriving DecidableEq, Repr

/-- The order in which `bgpstream_create` (bgpstream.c) constructs the
four owned components: filter manager, di manager, input manager, reader
manager. -/
def bgpstream_create_order : List bgpstream_component :=
  [bgpstream_component.filter_mgr, bgpstream_component.di_mgr,
   bgpstream_component.input_mgr, bgpstream_component.reader_mgr]

/-- `bgpstream_destroy` (bgpstream.c): NULL is a no-op; otherwise call
`bgpstream_stop` and then destroy, in source order, the input manager,
the reader manager, the filter manager and the di manager, then free the
struct.  The embedding returns the sequence of component releases and
the status the struct held when freed (`none` for the NULL no-op). -/
def bgpstream_destroy (bs : Option bgpstream_t) :
    List bgpstream_component × Option bgpstream_status_t :=
  match bs with
  | none => ([], none)
  | some b =>
    ([bgpstream_component.input_mgr, bgpstream_component.reader_mgr,
      bgpstream_component.filter_mgr, bgpstream_component.di_mgr],
     some (bgpstream_stop b).status)

/-- Modelled from the spec: the live-mode backoff constants — initial
30 s, capped at 1 hour.  (The backoff logic lives in the datasource
manager implementation, whose source is not provided; the header shows
only the `backoff_time` field.) -/
def BGPSTREAM_BACKOFF_INITIAL : Nat := 30

/-- Modelled from the spec: the backoff cap (1 hour). -/
def BGPSTREAM_BACKOFF_MAX : Nat := 3600

/-- Modelled from the spec: the next sleep after one more empty poll —
double the current backoff, capped at the maximum. -/
def bgpstream_backoff_next (b : Nat) : Nat :=
  min (2 * b) BGPSTREAM_BACKOFF_MAX

/-- Modelled from the spec: how the stored `backoff_time` evolves after a
poll — reset to the initial value on any non-empty poll, otherwise
doubled with cap. -/
def bgpstream_backoff_step (b : Nat) (poll_nonempty : Bool) : Nat :=
  if poll_nonempty then BGPSTREAM_BACKOFF_INITIAL else bgpstream_backoff_next b

/-- Modelled from the spec: the n-th sleep interval during an unbroken
run of empty polls in live mode. -/
def bgpstream_backoff_seq : Nat → Nat
  | 0 => BGPSTREAM_BACKOFF_INITIAL
  | Nat.succ n => bgpstream_backoff_next (bgpstream_backoff_seq n)

/-- A concrete empty filter manager, for concrete instantiations. -/
def fm_ex : bgpstream_filter_mgr_t :=
  { filters := [], intervals := [], rib_period := none }

/-- A concrete di manager with no pending polls. -/
def dm_ex : bgpstream_di_mgr_t :=
  { datasource := 0, options := [], blocking := false, polls := [] }

/-- A freshly created coordinator (status ALLOCATED), as
`bgpstream_create` leaves it. -/
def bs_ex : bgpstream_t :=
  { filter_mgr := fm_ex, di_mgr := dm_ex, input_mgr := [], reader_mgr := [],
    status := bgpstream_status_t.allocated }

/-- A started coordinator (status ON). -/
def bs_on : bgpstream_t := { bs_ex with status := bgpstream_status_t.on }

/-- A stopped coordinator (status OFF). -/
def bs_off : bgpstream_t := { bs_ex with status := bgpstream_status_t.off }

/-- A coordinator with one configured interval, still ALLOCATED. -/
def bs_iv : bgpstream_t :=
  { bs_ex with filter_mgr := { fm_ex with intervals := [(0, 1000)] } }

/-- C2: in any status other than ALLOCATED, each filter-mutation
operation returns the coordinator completely unchanged (the C functions
are void, so the rejection is the absence of any effect); in any status
other than ON, `bgpstream_get_next_record` returns the error code −1,
delivers no record and leaves the coordinator unchanged. -/
theorem C2_lifecycle_gating (b : bgpstream_t) (ft period now b0 e0 : Nat)
    (v interval : String) (islive : Bool) :
    (b.status ≠ bgpstream_status_t.allocated →
      bgpstream_add_filter (some b) ft v = some b ∧
      bgpstream_add_rib_period_filter (some b) period = some b ∧
      bgpstream_add_recent_interval_filter (some b) now interval islive = some b ∧
      bgpstream_add_interval_filter (some b) b0 e0 = some b) ∧
    (b.status ≠ bgpstream_status_t.on →
      bgpstream_get_next_record (some b) = (-1, none, some b)) := by
  constructor
  · intro h
    refine ⟨?_, ?_, ?_, ?_⟩ <;>
      simp [bgpstream_add_filter, bgpstream_add_rib_period_filter,
        bgpstream_add_recent_interval_filter, bgpstream_add_interval_filter, h]
  · intro h
    simp [bgpstream_get_next_record, h]

/-- Witness for C2 at the concrete OFF coordinator. -/
theorem C2_lifecycle_gating_witness :
    bgpstream_add_filter (some bs_off) 1 "rrc00" = some bs_off ∧
    bgpstream_get_next_record (some bs_off) = (-1, none, some bs_off) :=
  ⟨((C2_lifecycle_gating bs_off 1 0 0 0 0 "rrc00" "1h" false).1 (by decide)).1,
   (C2_lifecycle_gating bs_off 1 0 0 0 0 "rrc00" "1h" false).2 (by decide)⟩

/-- C3 counterexample: a coordinator in status ON (not ALLOCATED) on
which `bgpstream_set_data_interface` changes the configured backend and
`bgpstream_set_data_interface_option` changes the stored options — the
source performs no lifecycle-state check in either function, so the
operations are not rejected. -/
theorem C3_counterexample :
    bs_on.status ≠ bgpstream_status_t.allocated ∧
    (bgpstream_set_data_interface bs_on 2).di_mgr ≠ bs_on.di_mgr ∧
    (bgpstream_set_data_interface_option bs_on 5 "x").1.di_mgr ≠ bs_on.di_mgr := by
  refine ⟨by decide, ?_, ?_⟩ <;>
    simp [bgpstream_set_data_interface, bgpstream_set_data_interface_option,
      bgpstream_di_mgr_set_data_interface,
      bgpstream_di_mgr_set_data_interface_option, bs_on, dm_ex, bs_ex]

/-- C3 amended: `bgpstream_set_data_interface` and
`bgpstream_set_data_interface_option` delegate to the di manager
unconditionally — in every lifecycle state they modify the configured
backend (respectively append the option), leaving the rest of the
coordinator, including its status, unchanged. -/
theorem C3_amended_unconditional (b : bgpstream_t) (di opt : Nat) (v : String) :
    bgpstream_set_data_interface b di =
      { b with di_mgr := { b.di_mgr with datasource := di } } ∧
    bgpstream_set_data_interface_option b opt v =
      ({ b with di_mgr := { b.di_mgr with
          options := b.di_mgr.options ++ [(opt, v)] } }, 0) := by
  constructor <;>
    simp [bgpstream_set_data_interface, bgpstream_set_data_interface_option,
      bgpstream_di_mgr_set_data_interface,
      bgpstream_di_mgr_set_data_interface_option]

/-- C4: for a coordinator in status ALLOCATED, `bgpstream_start` returns
a non-zero error and leaves the status ALLOCATED when filter validation
fails or when the data interface fails to start, and returns 0 with
status ON when both succeed.  `di_rc` is the data-interface start
result. -/
theorem C4_start (b : bgpstream_t) (di_rc : Int)
    (h : b.status = bgpstream_status_t.allocated) :
    (bgpstream_filter_mgr_validate b.filter_mgr ≠ 0 →
      (bgpstream_start di_rc b).1 ≠ 0 ∧
      (bgpstream_start di_rc b).2.status = bgpstream_status_t.allocated) ∧
    (bgpstream_filter_mgr_validate b.filter_mgr = 0 → di_rc ≠ 0 →
      (bgpstream_start di_rc b).1 = -1 ∧
      (bgpstream_start di_rc b).2.status = bgpstream_status_t.allocated) ∧
    (bgpstream_filter_mgr_validate b.filter_mgr = 0 → di_rc = 0 →
      (bgpstream_start di_rc b).1 = 0 ∧
      (bgpstream_start di_rc b).2.status = bgpstream_status_t.on) := by
  refine ⟨fun hv => ?_, fun hv hd => ?_, fun hv hd => ?_⟩
  · simp [bgpstream_start, hv, h]
  · simp [bgpstream_start, hv, hd, h]
  · simp [bgpstream_start, hv, hd, h]

/-- Witness for C4: a coordinator with one interval starts successfully;
one with no interval fails validation and stays ALLOCATED. -/
theorem C4_start_witness :
    ((bgpstream_start 0 bs_iv).1 = 0 ∧
     (bgpstream_start 0 bs_iv).2.status = bgpstream_status_t.on) ∧
    ((bgpstream_start 0 bs_ex).1 ≠ 0 ∧
     (bgpstream_start 0 bs_ex).2.status = bgpstream_status_t.allocated) :=
  ⟨(C4_start bs_iv 0 (by decide)).2.2 (by decide) rfl,
   (C4_start bs_ex 0 (by decide)).1 (by decide)⟩

/-- C6: on an ALLOCATED coordinator, `bgpstream_add_interval_filter`
with end = FOREVER appends the interval and sets the blocking (live)
flag; with end < FOREVER it appends the interval and leaves the di
manager — in particular the blocking flag — untouched. -/
theorem C6_add_interval (b : bgpstream_t) (b0 e0 : Nat)
    (h : b.status = bgpstream_status_t.allocated) :
    (e0 = BGPSTREAM_FOREVER →
      bgpstream_add_interval_filter (some b) b0 e0 = some { b with
        di_mgr := { b.di_mgr with blocking := true },
        filter_mgr := { b.filter_mgr with
          intervals := b.filter_mgr.intervals ++ [(b0, e0)] } }) ∧
    (e0 < BGPSTREAM_FOREVER →
      bgpstream_add_interval_filter (some b) b0 e0 = some { b with
        filter_mgr := { b.filter_mgr with
          intervals := b.filter_mgr.intervals ++ [(b0, e0)] } }) := by
  constructor
  · intro he
    simp [bgpstream_add_interval_filter, h, he, bgpstream_set_live_mode,
      bgpstream_di_mgr_set_blocking, bgpstream_filter_mgr_interval_filter_add]
  · intro he
    simp [bgpstream_add_interval_filter, h, Nat.ne_of_lt he,
      bgpstream_filter_mgr_interval_filter_add]

/-- Witness for C6 at a concrete ALLOCATED coordinator, for both an
open-ended and a bounded interval. -/
theorem C6_add_interval_witness :
    bgpstream_add_interval_filter (some bs_ex) 10 BGPSTREAM_FOREVER =
      some { bs_ex with
        di_mgr := { bs_ex.di_mgr with blocking := true },
        filter_mgr := { bs_ex.filter_mgr with
          intervals := bs_ex.filter_mgr.intervals ++ [(10, BGPSTREAM_FOREVER)] } } ∧
    bgpstream_add_interval_filter (some bs_ex) 10 500 =
      some { bs_ex with
        filter_mgr := { bs_ex.filter_mgr with
          intervals := bs_ex.filter_mgr.intervals ++ [(10, 500)] } } :=
  ⟨(C6_add_interval bs_ex 10 BGPSTREAM_FOREVER (by decide)).1 rfl,
   (C6_add_interval bs_ex 10 500 (by decide)).2 (by decide)⟩

/-- C7: on an ALLOCATED coordinator, `bgpstream_add_recent_interval_filter`
with a specifier parsing to `d` seconds appends `[now − d, now]`;
with the live flag it instead appends `[now − d, FOREVER]` and sets the
blocking (live) flag; an unparseable specifier leaves the coordinator
unchanged. -/
theorem C7_add_recent (b : bgpstream_t) (now d : Nat) (interval : String)
    (islive : Bool) (h : b.status = bgpstream_status_t.allocated) :
    (parseDuration interval.toList = some d → islive = false →
      bgpstream_add_recent_interval_filter (some b) now interval islive =
        some { b with filter_mgr := { b.filter_mgr with
          intervals := b.filter_mgr.intervals ++ [(now - d, now)] } }) ∧
    (parseDuration interval.toList = some d → islive = true →
      bgpstream_add_recent_interval_filter (some b) now interval islive =
        some { b with
          di_mgr := { b.di_mgr with blocking := true },
          filter_mgr := { b.filter_mgr with
            intervals := b.filter_mgr.intervals ++
              [(now - d, BGPSTREAM_FOREVER)] } }) ∧
    (parseDuration interval.toList = none →
      bgpstream_add_recent_interval_filter (some b) now interval islive =
        some b) := by
  refine ⟨fun hp hl => ?_, fun hp hl => ?_, fun hp => ?_⟩
  · subst hl
    simp only [String.toList] at hp
    simp [bgpstream_add_recent_interval_filter, h,
      bgpstream_time_calc_recent_interval, hp,
      bgpstream_filter_mgr_interval_filter_add]
  · subst hl
    simp only [String.toList] at hp
    simp [bgpstream_add_recent_interval_filter, h,
      bgpstream_time_calc_recent_interval, hp, bgpstream_set_live_mode,
      bgpstream_di_mgr_set_blocking, bgpstream_filter_mgr_interval_filter_add]
  · simp only [String.toList] at hp
    simp [bgpstream_add_recent_interval_filter, h,
      bgpstream_time_calc_recent_interval, hp]

/-- Witness for C7: the specifier `"1h"` at now = 100000, both non-live
and live, and the unparseable specifier `"xyz"`. -/
theorem C7_add_recent_witness :
    bgpstream_add_recent_interval_filter (some bs_ex) 100000 "1h" false =
      some { bs_ex with filter_mgr := { bs_ex.filter_mgr with
        intervals := bs_ex.filter_mgr.intervals ++ [(96400, 100000)] } } ∧
    bgpstream_add_recent_interval_filter (some bs_ex) 100000 "1h" true =
      some { bs_ex with
        di_mgr := { bs_ex.di_mgr with blocking := true },
        filter_mgr := { bs_ex.filter_mgr with
          intervals := bs_ex.filter_mgr.intervals ++
            [(96400, BGPSTREAM_FOREVER)] } } ∧
    bgpstream_add_recent_interval_filter (some bs_ex) 100000 "xyz" false =
      some bs_ex :=
  ⟨(C7_add_recent bs_ex 100000 3600 "1h" false (by decide)).1 (by decide) rfl,
   (C7_add_recent bs_ex 100000 3600 "1h" true (by decide)).2.1 (by decide) rfl,
   (C7_add_recent bs_ex 100000 0 "xyz" false (by decide)).2.2 (by decide)⟩

/-- C8 counterexample: `bgpstream_destroy` releases the components in
the order input manager, reader manager, filter manager, di manager —
which is not the reverse of the construction order (filter manager, di
manager, input manager, reader manager) — and on an ALLOCATED
coordinator the status at free time is still ALLOCATED, not OFF. -/
theorem C8_counterexample :
    (bgpstream_destroy (some bs_ex)).1 ≠ bgpstream_create_order.reverse ∧
    (bgpstream_destroy (some bs_ex)).2 ≠ some bgpstream_status_t.off := by
  constructor <;> decide

/-- C8 amended: `bgpstream_destroy` on a non-NULL coordinator sets the
status to OFF only when it was ON (otherwise the status is left as it
was) and then releases the four owned components in the fixed order
input manager, reader manager, filter manager, di manager — not the
reverse of the construction order recorded in `bgpstream_create_order`. -/
theorem C8_destroy_order (b : bgpstream_t) :
    (bgpstream_destroy (some b)).1 =
      [bgpstream_component.input_mgr, bgpstream_component.reader_mgr,
       bgpstream_component.filter_mgr, bgpstream_component.di_mgr] ∧
    (bgpstream_destroy (some b)).2 =
      some (if b.status = bgpstream_status_t.on then bgpstream_status_t.off
            else b.status) ∧
    (bgpstream_destroy (some b)).1 ≠ bgpstream_create_order.reverse := by
  refine ⟨rfl, ?_, ?_⟩
  · by_cases hb : b.status = bgpstream_status_t.on <;>
      simp [bgpstream_destroy, bgpstream_stop, hb]
  · intro hc
    simp [bgpstream_destroy, bgpstream_create_order] at hc

/-- The closed form of the modelled live-mode backoff sequence: the n-th
sleep is `min (30 · 2^n) 3600`. -/
theorem bgpstream_backoff_seq_closed (n : Nat) :
    bgpstream_backoff_seq n = min (30 * 2 ^ n) BGPSTREAM_BACKOFF_MAX := by
  induction n with
  | zero => simp [bgpstream_backoff_seq, BGPSTREAM_BACKOFF_INITIAL,
      BGPSTREAM_BACKOFF_MAX]
  | succ n ih =>
    rw [bgpstream_backoff_seq, ih, bgpstream_backoff_next]
    have hpow : 30 * 2 ^ (n + 1) = 2 * (30 * 2 ^ n) := by ring
    rw [hpow]
    rcases Nat.le_total (30 * 2 ^ n) BGPSTREAM_BACKOFF_MAX with hle | hle
    · rw [Nat.min_eq_left hle]
    · rw [Nat.min_eq_right hle, Nat.min_eq_right (by omega),
        Nat.min_eq_right (by omega)]

/-- C9: the modelled live-mode sleep sequence starts at 30 s, follows
the doubling-with-cap law `min (30 · 2^n) 3600`, is non-decreasing, is
capped at 3600 s (1 hour), and any non-empty poll resets the stored
backoff to the initial 30 s. -/
theorem C9_backoff (n : Nat) (b : Nat) :
    bgpstream_backoff_seq 0 = 30 ∧
    bgpstream_backoff_seq n = min (30 * 2 ^ n) 3600 ∧
    bgpstream_backoff_seq n ≤ bgpstream_backoff_seq (n + 1) ∧
    bgpstream_backoff_seq n ≤ 3600 ∧
    bgpstream_backoff_step b true = 30 := by
  have hM : BGPSTREAM_BACKOFF_MAX = 3600 := rfl
  have h1 := bgpstream_backoff_seq_closed n
  have h2 := bgpstream_backoff_seq_closed (n + 1)
  rw [hM] at h1 h2
  refine ⟨rfl, h1, ?_, ?_, rfl⟩
  · rw [h1, h2]
    have : 30 * 2 ^ n ≤ 30 * 2 ^ (n + 1) := by
      have : 2 ^ n ≤ 2 ^ (n + 1) := Nat.pow_le_pow_right (by omega) (by omega)
      omega
    omega
  · rw [h1]; omega

/-- C10: every listed coordinator entry point is NULL-safe — on the
NULL handle the mutators and `bgpstream_destroy` return with no effect
(the handle stays NULL, nothing is released) and
`bgpstream_get_next_record` returns the error code −1 without
delivering a record. -/
theorem C10_null_safety (ft period now b0 e0 : Nat) (v interval : String)
    (islive : Bool) :
    bgpstream_add_filter none ft v = none ∧
    bgpstream_add_rib_period_filter none period = none ∧
    bgpstream_add_recent_interval_filter none now interval islive = none ∧
    bgpstream_add_interval_filter none b0 e0 = none ∧
    bgpstream_destroy none = ([], none) ∧
    bgpstream_get_next_record none = (-1, none, none) :=
  ⟨rfl, rfl, rfl, rfl, rfl, rfl⟩

/-- Every reader in the set holds a non-decreasing timestamp list. -/
def allSorted (rs : List (List Nat)) : Prop :=
  ∀ l ∈ rs, List.Sorted (· ≤ ·) l

/-- `x` is an undelivered timestamp of some reader in `rs`. -/
def memAll (x : Nat) (rs : List (List Nat)) : Prop :=
  ∃ l ∈ rs, x ∈ l

/-- Every undelivered timestamp in `rs` is at least `t`. -/
def allGE (t : Nat) (rs : List (List Nat)) : Prop :=
  ∀ x, memAll x rs → t ≤ x

/-- A reader set on which `reader_mgr_pop` finds nothing holds no
undelivered timestamp at all. -/
theorem reader_mgr_pop_none_no_mem :
    ∀ (rs : List (List Nat)), reader_mgr_pop rs = none →
      ∀ x, ¬ memAll x rs := by
  intro rs
  induction rs with
  | nil =>
    intro _ x hx
    obtain ⟨m, hm, _⟩ := hx
    cases hm
  | cons l rest ih =>
    intro hp x hx
    cases l with
    | nil =>
      cases hpr : reader_mgr_pop rest with
      | none =>
        obtain ⟨m, hm, hxm⟩ := hx
        rcases List.mem_cons.mp hm with hm | hm
        · subst hm; cases hxm
        · exact ih hpr x ⟨m, hm, hxm⟩
      | some ur => simp [reader_mgr_pop, hpr] at hp
    | cons t0 ts =>
      cases hpr : reader_mgr_pop rest with
      | none => simp [reader_mgr_pop, hpr] at hp
      | some ur =>
        obtain ⟨u, rest'⟩ := ur
        by_cases hle : t0 ≤ u <;> simp [reader_mgr_pop, hpr, hle] at hp

/-- A reader set that is not empty always yields a record. -/
theorem reader_mgr_pop_of_not_empty :
    ∀ (rs : List (List Nat)),
      bgpstream_reader_mgr_is_empty rs = false →
      ∃ t rs', reader_mgr_pop rs = some (t, rs') := by
  intro rs
  induction rs with
  | nil => intro h; simp [bgpstream_reader_mgr_is_empty] at h
  | cons l rest ih =>
    intro h
    cases l with
    | nil =>
      have h' : bgpstream_reader_mgr_is_empty rest = false := by
        simpa [bgpstream_reader_mgr_is_empty] using h
      obtain ⟨t, rs', hp⟩ := ih h'
      exact ⟨t, [] :: rs', by simp [reader_mgr_pop, hp]⟩
    | cons t0 ts =>
      cases hpr : reader_mgr_pop rest with
      | none => exact ⟨t0, ts :: rest, by simp [reader_mgr_pop, hpr]⟩
      | some ur =>
        obtain ⟨u, rest'⟩ := ur
        by_cases hle : t0 ≤ u
        · exact ⟨t0, ts :: rest, by simp [reader_mgr_pop, hpr, hle]⟩
        · exact ⟨u, (t0 :: ts) :: rest', by simp [reader_mgr_pop, hpr, hle]⟩

/-- Soundness of the modelled emission step: on a reader set of sorted
lists, `reader_mgr_pop` delivers a timestamp that is present in the set
and minimal among all undelivered timestamps, and leaves a set of sorted
lists whose timestamps all come from the original set. -/
theorem reader_mgr_pop_spec :
    ∀ (rs : List (List Nat)) (t : Nat) (rs' : List (List Nat)),
      allSorted rs → reader_mgr_pop rs = some (t, rs') →
      allSorted rs' ∧ memAll t rs ∧ (∀ x, memAll x rs → t ≤ x) ∧
      (∀ x, memAll x rs' → memAll x rs) := by
  intro rs
  induction rs with
  | nil => intro t rs' _ hp; simp [reader_mgr_pop] at hp
  | cons l rest ih =>
    intro t rs' hs hp
    have hsl : List.Sorted (· ≤ ·) l := hs l (List.mem_cons_self _ _)
    have hsrest : allSorted rest := fun m hm => hs m (List.mem_cons_of_mem _ hm)
    cases l with
    | nil =>
      cases hpr : reader_mgr_pop rest with
      | none => simp [reader_mgr_pop, hpr] at hp
      | some ur =>
        obtain ⟨u, rest'⟩ := ur
        simp only [reader_mgr_pop, hpr, Option.some.injEq, Prod.mk.injEq] at hp
        obtain ⟨ht, hrs⟩ := hp
        subst ht
        subst hrs
        obtain ⟨ha, hmem, hmin, hsub⟩ := ih u rest' hsrest hpr
        refine ⟨?_, ?_, ?_, ?_⟩
        · intro m hm
          rcases List.mem_cons.mp hm with hm | hm
          · subst hm; exact List.sorted_nil
          · exact ha m hm
        · obtain ⟨m, hm, hx⟩ := hmem
          exact ⟨m, List.mem_cons_of_mem _ hm, hx⟩
        · intro x hx
          obtain ⟨m, hm, hxm⟩ := hx
          rcases List.mem_cons.mp hm with hm | hm
          · subst hm; cases hxm
          · exact hmin x ⟨m, hm, hxm⟩
        · intro x hx
          obtain ⟨m, hm, hxm⟩ := hx
          rcases List.mem_cons.mp hm with hm | hm
          · subst hm; cases hxm
          · obtain ⟨m2, hm2, hx2⟩ := hsub x ⟨m, hm, hxm⟩
            exact ⟨m2, List.mem_cons_of_mem _ hm2, hx2⟩
    | cons t0 ts =>
      have hts : List.Sorted (· ≤ ·) ts := (List.sorted_cons.mp hsl).2
      have hhead : ∀ x ∈ ts, t0 ≤ x := (List.sorted_cons.mp hsl).1
      cases hpr : reader_mgr_pop rest with
      | none =>
        simp only [reader_mgr_pop, hpr, Option.some.injEq, Prod.mk.injEq] at hp
        obtain ⟨ht, hrs⟩ := hp
        subst ht
        subst hrs
        have hnomem := reader_mgr_pop_none_no_mem rest hpr
        refine ⟨?_, ⟨t0 :: ts, List.mem_cons_self _ _, List.mem_cons_self _ _⟩, ?_, ?_⟩
        · intro m hm
          rcases List.mem_cons.mp hm with hm | hm
          · subst hm; exact hts
          · exact hsrest m hm
        · intro x hx
          obtain ⟨m, hm, hxm⟩ := hx
          rcases List.mem_cons.mp hm with hm | hm
          · subst hm
            rcases List.mem_cons.mp hxm with hxm | hxm
            · exact hxm ▸ le_refl _
            · exact hhead x hxm
          · exact absurd ⟨m, hm, hxm⟩ (hnomem x)
        · intro x hx
          obtain ⟨m, hm, hxm⟩ := hx
          rcases List.mem_cons.mp hm with hm | hm
          · exact ⟨t0 :: ts, List.mem_cons_self _ _, hm ▸ List.mem_cons_of_mem _ hxm⟩
          · exact ⟨m, List.mem_cons_of_mem _ hm, hxm⟩
      | some ur =>
        obtain ⟨u, rest'⟩ := ur
        obtain ⟨ha, hmem, hmin, hsub⟩ := ih u rest' hsrest hpr
        by_cases hle : t0 ≤ u
        · simp only [reader_mgr_pop, hpr, if_pos hle, Option.some.injEq,
            Prod.mk.injEq] at hp
          obtain ⟨ht, hrs⟩ := hp
          subst ht
          subst hrs
          refine ⟨?_, ⟨t0 :: ts, List.mem_cons_self _ _, List.mem_cons_self _ _⟩, ?_, ?_⟩
          · intro m hm
            rcases List.mem_cons.mp hm with hm | hm
            · subst hm; exact hts
            · exact hsrest m hm
          · intro x hx
            obtain ⟨m, hm, hxm⟩ := hx
            rcases List.mem_cons.mp hm with hm | hm
            · subst hm
              rcases List.mem_cons.mp hxm with hxm | hxm
              · exact hxm ▸ le_refl _
              · exact hhead x hxm
            · exact le_trans hle (hmin x ⟨m, hm, hxm⟩)
          · intro x hx
            obtain ⟨m, hm, hxm⟩ := hx
            rcases List.mem_cons.mp hm with hm | hm
            · exact ⟨t0 :: ts, List.mem_cons_self _ _, hm ▸ List.mem_cons_of_mem _ hxm⟩
            · exact ⟨m, List.mem_cons_of_mem _ hm, hxm⟩
        · simp only [reader_mgr_pop, hpr, if_neg hle, Option.some.injEq,
            Prod.mk.injEq] at hp
          obtain ⟨ht, hrs⟩ := hp
          subst ht
          subst hrs
          have hut : u ≤ t0 := le_of_not_le hle
          refine ⟨?_, ?_, ?_, ?_⟩
          · intro m hm
            rcases List.mem_cons.mp hm with hm | hm
            · subst hm; exact hsl
            · exact ha m hm
          · obtain ⟨m, hm, hx⟩ := hmem
            exact ⟨m, List.mem_cons_of_mem _ hm, hx⟩
          · intro x hx
            obtain ⟨m, hm, hxm⟩ := hx
            rcases List.mem_cons.mp hm with hm | hm
            · subst hm
              rcases List.mem_cons.mp hxm with hxm | hxm
              · exact hxm ▸ hut
              · exact le_trans hut (hhead x hxm)
            · exact hmin x ⟨m, hm, hxm⟩
          · intro x hx
            obtain ⟨m, hm, hxm⟩ := hx
            rcases List.mem_cons.mp hm with hm | hm
            · exact ⟨t0 :: ts, List.mem_cons_self _ _, hm ▸ hxm⟩
            · obtain ⟨m2, hm2, hx2⟩ := hsub x ⟨m, hm, hxm⟩
              exact ⟨m2, List.mem_cons_of_mem _ hm2, hx2⟩

/-- One loop iteration with an empty reader set, empty input queue and
no further poll results: the C code returns 0 (end of stream). -/
theorem get_next_loop_exhausted (fuel : Nat) (readers : List (List Nat))
    (h : bgpstream_reader_mgr_is_empty readers = true) :
    bgpstream_get_next_loop (fuel + 1) [] [] readers =
      (0, none, ([], [], readers)) := by
  simp [bgpstream_get_next_loop, h]

/-- One loop iteration with an empty reader set and input queue when the
poll returns zero descriptors: the C code returns 0 (end of stream). -/
theorem get_next_loop_poll_zero (fuel : Nat) (rest : List PollResult) :
    bgpstream_get_next_loop (fuel + 1) (some [] :: rest) [] [] =
      (0, none, (rest, [], [])) := by
  simp [bgpstream_get_next_loop, bgpstream_reader_mgr_is_empty]

/-- One loop iteration with an empty reader set and input queue when the
poll fails: the C code returns −1 (error). -/
theorem get_next_loop_poll_err (fuel : Nat) (rest : List PollResult) :
    bgpstream_get_next_loop (fuel + 1) (none :: rest) [] [] =
      (-1, none, (rest, [], [])) := by
  simp [bgpstream_get_next_loop, bgpstream_reader_mgr_is_empty]

/-- One loop iteration with an empty reader set and input queue when the
poll returns descriptors: they are appended to the input queue. -/
theorem get_next_loop_poll_files (fuel : Nat) (rest : List PollResult)
    (f : List Nat) (fs : List (List Nat)) :
    bgpstream_get_next_loop (fuel + 1) (some (f :: fs) :: rest) [] [] =
      bgpstream_get_next_loop fuel rest (f :: fs) [] := by
  simp [bgpstream_get_next_loop, bgpstream_reader_mgr_is_empty]

/-- One loop iteration with an empty reader set and a non-empty input
queue: the queue is drained into the reader set. -/
theorem get_next_loop_load (fuel : Nat) (polls : List PollResult)
    (f : List Nat) (fs : List (List Nat)) :
    bgpstream_get_next_loop (fuel + 1) polls (f :: fs) [] =
      bgpstream_get_next_loop fuel polls []
        ((f :: fs).filter (fun l => !l.isEmpty)) := by
  simp [bgpstream_get_next_loop, bgpstream_reader_mgr_is_empty,
    bgpstream_reader_mgr_add]

/-- One loop iteration with a non-empty reader set: the minimum record
is delivered (C return 1). -/
theorem get_next_loop_emit (fuel : Nat) (polls : List PollResult)
    (inputs readers : List (List Nat)) (t : Nat) (rs' : List (List Nat))
    (hne : bgpstream_reader_mgr_is_empty readers = false)
    (hp : reader_mgr_pop readers = some (t, rs')) :
    bgpstream_get_next_loop (fuel + 1) polls inputs readers =
      (1, some t, (polls, inputs, rs')) := by
  simp [bgpstream_get_next_loop, hne, hp]

/-- `bgpstream_get_next_record` on a non-NULL coordinator in status ON,
expressed through the refill/merge loop. -/
theorem get_next_record_on (b : bgpstream_t)
    (hs : b.status = bgpstream_status_t.on) :
    bgpstream_get_next_record (some b) =
      ((bgpstream_get_next_loop (2 * b.di_mgr.polls.length + 2)
          b.di_mgr.polls b.input_mgr b.reader_mgr).1,
       (bgpstream_get_next_loop (2 * b.di_mgr.polls.length + 2)
          b.di_mgr.polls b.input_mgr b.reader_mgr).2.1,
       some { b with
         di_mgr := { b.di_mgr with
           polls := (bgpstream_get_next_loop (2 * b.di_mgr.polls.length + 2)
             b.di_mgr.polls b.input_mgr b.reader_mgr).2.2.1 },
         input_mgr := (bgpstream_get_next_loop (2 * b.di_mgr.polls.length + 2)
           b.di_mgr.polls b.input_mgr b.reader_mgr).2.2.2.1,
         reader_mgr := (bgpstream_get_next_loop (2 * b.di_mgr.polls.length + 2)
           b.di_mgr.polls b.input_mgr b.reader_mgr).2.2.2.2 }) := by
  simp [bgpstream_get_next_record, hs]

/-- The invariant maintained between successive `next_record` calls once
the single fixture poll has been consumed: status ON, no pending polls
or inputs, every open reader sorted, and every undelivered timestamp at
least `t` (the last delivered timestamp). -/
def StreamInv (t : Nat) (b : bgpstream_t) : Prop :=
  b.status = bgpstream_status_t.on ∧ b.di_mgr.polls = [] ∧
  b.input_mgr = [] ∧ allSorted b.reader_mgr ∧ allGE t b.reader_mgr

/-- Reader sets produced by draining the input queue contain only
non-exhausted readers, so they are empty only when they contain no
reader at all. -/
theorem reader_mgr_is_empty_filter (files : List (List Nat))
    (h : files.filter (fun l => !l.isEmpty) ≠ []) :
    bgpstream_reader_mgr_is_empty (files.filter (fun l => !l.isEmpty)) = false := by
  cases hf : files.filter (fun l => !l.isEmpty) with
  | nil => exact absurd hf h
  | cons l ls =>
    have hl : l ∈ files.filter (fun l => !l.isEmpty) := by
      rw [hf]; exact List.mem_cons_self _ _
    have hpred : (!l.isEmpty) = true := (List.mem_filter.mp hl).2
    have hle : l.isEmpty = false := by
      cases hli : l.isEmpty
      · rfl
      · rw [hli] at hpred; simp at hpred
    simp [bgpstream_reader_mgr_is_empty, hle]

/-- One call to `next_record` in the drained state: either a record is
delivered, at least as late as everything delivered before, and the
invariant is re-established at the new timestamp, or no record is
delivered. -/
theorem get_next_record_drained (t : Nat) (b : bgpstream_t)
    (h : StreamInv t b) :
    (∃ u b', t ≤ u ∧
      bgpstream_get_next_record (some b) = (1, some u, some b') ∧
      StreamInv u b') ∨
    (∃ rc b', bgpstream_get_next_record (some b) = (rc, none, b')) := by
  obtain ⟨hs, hpolls, hin, hsort, hge⟩ := h
  have hf : 2 * b.di_mgr.polls.length + 2 = 1 + 1 := by rw [hpolls]; rfl
  cases hemp : bgpstream_reader_mgr_is_empty b.reader_mgr with
  | true =>
    right
    rw [get_next_record_on b hs, hf, hpolls, hin,
      get_next_loop_exhausted 1 b.reader_mgr hemp]
    exact ⟨0, _, rfl⟩
  | false =>
    obtain ⟨u, rs', hpop⟩ := reader_mgr_pop_of_not_empty _ hemp
    obtain ⟨ha, hmem, hmin, hsub⟩ := reader_mgr_pop_spec _ u rs' hsort hpop
    left
    refine ⟨u, { b with
        di_mgr := { b.di_mgr with polls := [] },
        input_mgr := [], reader_mgr := rs' }, hge u hmem, ?_, ?_⟩
    · rw [get_next_record_on b hs, hf, hpolls, hin,
        get_next_loop_emit 1 [] [] b.reader_mgr u rs' hemp hpop]
    · exact ⟨hs, rfl, rfl, ha, fun x hx => hmin x (hsub x hx)⟩

/-- Once the invariant holds, every continuation of the stream is
non-decreasing and bounded below by the invariant timestamp. -/
theorem bgpstream_run_sorted_inv (fuel : Nat) :
    ∀ (t : Nat) (b : bgpstream_t), StreamInv t b →
      List.Sorted (· ≤ ·) (bgpstream_run fuel (some b)) ∧
      ∀ x ∈ bgpstream_run fuel (some b), t ≤ x := by
  induction fuel with
  | zero => intro t b _; exact ⟨List.sorted_nil, by simp [bgpstream_run]⟩
  | succ n ih =>
    intro t b h
    rcases get_next_record_drained t b h with
      ⟨u, b', htu, heq, hinv⟩ | ⟨rc, b', heq⟩
    · have hrun : bgpstream_run (n + 1) (some b) =
          u :: bgpstream_run n (some b') := by
        rw [bgpstream_run, heq]
      obtain ⟨hsorted, hge'⟩ := ih u b' hinv
      rw [hrun]
      refine ⟨List.sorted_cons.mpr ⟨hge', hsorted⟩, ?_⟩
      intro x hx
      rcases List.mem_cons.mp hx with hx | hx
      · exact hx ▸ htu
      · exact le_trans htu (hge' x hx)
    · have hrun : bgpstream_run (n + 1) (some b) = [] := by
        rw [bgpstream_run, heq]
      rw [hrun]
      exact ⟨List.sorted_nil, by simp⟩

/-- The first `next_record` call on a coordinator whose backend will
deliver the fixture `files` in a single poll: either nothing is
delivered, or a record is delivered and the drained-state invariant
holds at its timestamp. -/
theorem get_next_record_first (b : bgpstream_t) (files : List (List Nat))
    (hs : b.status = bgpstream_status_t.on) (hr : b.reader_mgr = [])
    (hi : b.input_mgr = []) (hp : b.di_mgr.polls = [some files])
    (hsort : ∀ f ∈ files, List.Sorted (· ≤ ·) f) :
    (∃ u b', bgpstream_get_next_record (some b) = (1, some u, some b') ∧
      StreamInv u b') ∨
    (∃ rc b', bgpstream_get_next_record (some b) = (rc, none, b')) := by
  have hf : 2 * b.di_mgr.polls.length + 2 = 3 + 1 := by rw [hp]; rfl
  have e0 := get_next_record_on b hs
  rw [hf, hp, hi, hr] at e0
  cases files with
  | nil =>
    rw [get_next_loop_poll_zero 3 []] at e0
    right
    exact ⟨0, _, e0⟩
  | cons f fs =>
    rw [get_next_loop_poll_files 3 [] f fs] at e0
    have e2 : bgpstream_get_next_loop 3 [] (f :: fs) [] =
        bgpstream_get_next_loop 2 [] []
          ((f :: fs).filter (fun l => !l.isEmpty)) := by
      have := get_next_loop_load 2 [] f fs
      norm_num at this
      exact this
    rw [e2] at e0
    by_cases hF : (f :: fs).filter (fun l => !l.isEmpty) = []
    · rw [hF] at e0
      have e3 : bgpstream_get_next_loop 2 [] [] ([] : List (List Nat)) =
          (0, none, ([], [], [])) := by
        have := get_next_loop_exhausted 1 ([] : List (List Nat)) rfl
        norm_num at this
        exact this
      rw [e3] at e0
      right
      exact ⟨0, _, e0⟩
    · have hemp := reader_mgr_is_empty_filter (f :: fs) hF
      obtain ⟨u, rs', hpop⟩ := reader_mgr_pop_of_not_empty _ hemp
      have hsF : allSorted ((f :: fs).filter (fun l => !l.isEmpty)) :=
        fun l hl => hsort l (List.mem_of_mem_filter hl)
      obtain ⟨ha, hmem, hmin, hsub⟩ := reader_mgr_pop_spec _ u rs' hsF hpop
      have e4 : bgpstream_get_next_loop 2 [] []
          ((f :: fs).filter (fun l => !l.isEmpty)) =
          (1, some u, ([], [], rs')) := by
        have := get_next_loop_emit 1 [] []
          ((f :: fs).filter (fun l => !l.isEmpty)) u rs' hemp hpop
        norm_num at this
        exact this
      rw [e4] at e0
      left
      refine ⟨u, _, e0, ?_⟩
      exact ⟨hs, rfl, rfl, ha, fun x hx => hmin x (hsub x hx)⟩

/-- C1: for every coordinator state (hence every filter set) started
over a fixture of input files — each file, after filtering, yielding a
non-decreasing timestamp sequence, delivered by the backend in one
poll — the sequence of timestamps delivered by successive successful
`bgpstream_get_next_record` calls is non-decreasing, including across
file boundaries (the files are merged record by record). -/
theorem C1_monotonic_emission (b : bgpstream_t) (files : List (List Nat))
    (fuel : Nat) (hs : b.status = bgpstream_status_t.on)
    (hr : b.reader_mgr = []) (hi : b.input_mgr = [])
    (hp : b.di_mgr.polls = [some files])
    (hsort : ∀ f ∈ files, List.Sorted (· ≤ ·) f) :
    List.Sorted (· ≤ ·) (bgpstream_run fuel (some b)) := by
  cases fuel with
  | zero => exact List.sorted_nil
  | succ n =>
    rcases get_next_record_first b files hs hr hi hp hsort with
      ⟨u, b', heq, hinv⟩ | ⟨rc, b', heq⟩
    · have hrun : bgpstream_run (n + 1) (some b) =
          u :: bgpstream_run n (some b') := by
        rw [bgpstream_run, heq]
      obtain ⟨hsorted, hge⟩ := bgpstream_run_sorted_inv n u b' hinv
      rw [hrun]
      exact List.sorted_cons.mpr ⟨hge, hsorted⟩
    · have hrun : bgpstream_run (n + 1) (some b) = [] := by
        rw [bgpstream_run, heq]
      rw [hrun]
      exact List.sorted_nil

/-- A started coordinator over a concrete three-file fixture whose files
interleave in time. -/
def bs_fix : bgpstream_t :=
  { bs_on with di_mgr :=
    { dm_ex with polls := [some [[1, 5, 9], [2, 3, 10], [4]]] } }

/-- Witness for C1 at the concrete three-file fixture. -/
theorem C1_monotonic_emission_witness :
    List.Sorted (· ≤ ·) (bgpstream_run 10 (some bs_fix)) :=
  C1_monotonic_emission bs_fix [[1, 5, 9], [2, 3, 10], [4]] 10 rfl rfl rfl rfl
    (by decide)

/-- C5: with an empty reader set and an empty input queue,
`bgpstream_get_next_record` polls the data interface; a poll yielding
zero descriptors makes it return the end-of-stream status 0 with no
record, a failing poll makes it return the error status −1 with no
record, and the two statuses are distinct (end-of-stream is not the
error value). -/
theorem C5_poll_outcomes (b : bgpstream_t) (rest : List PollResult)
    (hs : b.status = bgpstream_status_t.on)
    (hr : b.reader_mgr = []) (hi : b.input_mgr = []) :
    (b.di_mgr.polls = some [] :: rest →
      (bgpstream_get_next_record (some b)).1 = 0 ∧
      (bgpstream_get_next_record (some b)).2.1 = none) ∧
    (b.di_mgr.polls = none :: rest →
      (bgpstream_get_next_record (some b)).1 = -1 ∧
      (bgpstream_get_next_record (some b)).2.1 = none) ∧
    (0 : Int) ≠ -1 := by
  refine ⟨fun hpolls => ?_, fun hpolls => ?_, by decide⟩
  · have hf : 2 * b.di_mgr.polls.length + 2 = 2 * rest.length + 3 + 1 := by
      rw [hpolls]; simp only [List.length_cons]; omega
    rw [get_next_record_on b hs, hf, hpolls, hi, hr,
      get_next_loop_poll_zero (2 * rest.length + 3) rest]
    exact ⟨rfl, rfl⟩
  · have hf : 2 * b.di_mgr.polls.length + 2 = 2 * rest.length + 3 + 1 := by
      rw [hpolls]; simp only [List.length_cons]; omega
    rw [get_next_record_on b hs, hf, hpolls, hi, hr,
      get_next_loop_poll_err (2 * rest.length + 3) rest]
    exact ⟨rfl, rfl⟩

/-- A started coordinator whose backend will report zero descriptors. -/
def bs_eos : bgpstream_t :=
  { bs_on with di_mgr := { dm_ex with polls := [some []] } }

/-- A started coordinator whose backend poll will fail. -/
def bs_err : bgpstream_t :=
  { bs_on with di_mgr := { dm_ex with polls := [none] } }

/-- Witness for C5 at concrete end-of-stream and failure fixtures. -/
theorem C5_poll_outcomes_witness :
    ((bgpstream_get_next_record (some bs_eos)).1 = 0 ∧
     (bgpstream_get_next_record (some bs_eos)).2.1 = none) ∧
    ((bgpstream_get_next_record (some bs_err)).1 = -1 ∧
     (bgpstream_get_next_record (some bs_err)).2.1 = none) :=
  ⟨(C5_poll_outcomes bs_eos [] rfl rfl rfl).1 rfl,
   (C5_poll_outcomes bs_err [] rfl rfl rfl).2.1 rfl⟩
